import Mathlib

/-!
Shallow embedding of the aggregation / KPI / simulation core of the
Green-Supply-Chain dashboard (`src/models.py`, plus the packaging
breakdown of `src/pages/3_📊_Sustainability_Report.py`).

Modelling conventions:
* a pandas `DataFrame` of packaging records is a `List PackagingData`
  (one element per row, in row order);
* Python `int` columns are `Int`, `float` columns are `ℚ` (exact
  rationals stand in for IEEE doubles; every concrete input evaluated in
  a theorem below has been checked to take exactly the same values under
  double arithmetic);
* `pd.DataFrame([])` built from an empty record list has *no columns*,
  so every column access in `calculate_kpis` / the `groupby`
  aggregations raises `KeyError`; the aggregation entry points of
  `DataProcessor` therefore return `Option` results, `none` on the
  empty collection;
* float division of a sum by zero in pandas yields `inf`/`NaN`
  (a non-finite value, no exception); `pdDiv` returns `none` there;
* `numpy` `.astype(int)` truncates toward zero, modelled by `pyTrunc`.
-/

/-- One packaging-flow record (`PackagingData` in `src/models.py`,
one row of the dashboard's DataFrame). Dates are day ordinals. -/
structure PackagingData where
  date : Nat
  facility_id : String
  facility_name : String
  facility_type : String
  packaging_type : String
  total_produced : Int
  total_returned : Int
  total_reused : Int
  total_recycled : Int
  total_waste : Int
  co2_saved : ℚ
  cost_savings : ℚ
  latitude : ℚ
  longitude : ℚ
deriving DecidableEq, Repr

/-- `KPIMetrics` dataclass of `src/models.py`. -/
structure KPIMetrics where
  reuse_rate : ℚ
  waste_rate : ℚ
  recovery_rate : ℚ
  co2_saved_total : ℚ
  cost_savings_total : ℚ
  efficiency_score : ℚ
deriving DecidableEq, Repr

/-- Sum of an integer column over a record list (`df[col].sum()`). -/
def sumI (f : PackagingData → Int) (rs : List PackagingData) : Int :=
  (rs.map f).sum

/-- Sum of a float column over a record list (`df[col].sum()`). -/
def sumQ (f : PackagingData → ℚ) (rs : List PackagingData) : ℚ :=
  (rs.map f).sum

/-- Pandas float division: division by zero produces a non-finite value
(`inf` or `NaN`), modelled as `none`; otherwise the exact quotient. -/
def pdDiv (a b : ℚ) : Option ℚ :=
  if b = 0 then none else some (a / b)

/-- A rate column `num / den * 100` as the grouped aggregations derive it
(no zero guard in the source: a zero denominator yields non-finite). -/
def pdRate (num den : Int) : Option ℚ :=
  (pdDiv (num : ℚ) (den : ℚ)).map (· * 100)

/-- `DataProcessor.calculate_kpis`. On the empty collection the frame
built by `_to_dataframe` has no columns, so `self.df['total_produced']`
raises `KeyError`: modelled as `none`. Otherwise the rates carry the
explicit `if total_produced > 0 else 0` guard of the source. -/
def calculate_kpis (rs : List PackagingData) : Option KPIMetrics :=
  match rs with
  | [] => none
  | _ :: _ =>
    let total_produced := sumI (·.total_produced) rs
    let total_returned := sumI (·.total_returned) rs
    let total_reused := sumI (·.total_reused) rs
    let total_waste := sumI (·.total_waste) rs
    let reuse_rate : ℚ :=
      if 0 < total_produced then (total_reused : ℚ) / (total_produced : ℚ) * 100 else 0
    let waste_rate : ℚ :=
      if 0 < total_produced then (total_waste : ℚ) / (total_produced : ℚ) * 100 else 0
    let recovery_rate : ℚ :=
      if 0 < total_produced then (total_returned : ℚ) / (total_produced : ℚ) * 100 else 0
    some
      { reuse_rate := reuse_rate
        waste_rate := waste_rate
        recovery_rate := recovery_rate
        co2_saved_total := sumQ (·.co2_saved) rs
        cost_savings_total := sumQ (·.cost_savings) rs
        efficiency_score :=
          (reuse_rate * 0.4) + ((100 - waste_rate) * 0.3) + (recovery_rate * 0.3) }

/-- Output row of `DataProcessor.get_facility_performance`: exactly the
columns the source sums (`total_recycled` is *not* aggregated there),
plus the derived rate columns. -/
structure FacilityRow where
  facility_id : String
  facility_name : String
  total_produced : Int
  total_returned : Int
  total_reused : Int
  total_waste : Int
  co2_saved : ℚ
  cost_savings : ℚ
  reuse_rate : Option ℚ
  waste_rate : Option ℚ
  recovery_rate : Option ℚ
deriving DecidableEq, Repr

/-- Group keys of `df.groupby(['facility_id', 'facility_name'])`, in
order of first appearance. (Pandas additionally sorts the keys; no
claim below concerns the order of facility rows.) -/
def facilityKeys (rs : List PackagingData) : List (String × String) :=
  (rs.map fun r => (r.facility_id, r.facility_name)).dedup

/-- Members of one facility group. -/
def facilityGroup (rs : List PackagingData) (k : String × String) : List PackagingData :=
  rs.filter fun r => r.facility_id == k.1 && r.facility_name == k.2

/-- One aggregated facility row: column sums over the group, then the
unguarded rate derivations of the source. -/
def mkFacilityRow (rs : List PackagingData) (k : String × String) : FacilityRow :=
  let g := facilityGroup rs k
  let produced := sumI (·.total_produced) g
  { facility_id := k.1
    facility_name := k.2
    total_produced := produced
    total_returned := sumI (·.total_returned) g
    total_reused := sumI (·.total_reused) g
    total_waste := sumI (·.total_waste) g
    co2_saved := sumQ (·.co2_saved) g
    cost_savings := sumQ (·.cost_savings) g
    reuse_rate := pdRate (sumI (·.total_reused) g) produced
    waste_rate := pdRate (sumI (·.total_waste) g) produced
    recovery_rate := pdRate (sumI (·.total_returned) g) produced }

/-- `DataProcessor.get_facility_performance`; `none` on the empty
collection (column-less frame, `KeyError` in `groupby`). -/
def get_facility_performance (rs : List PackagingData) : Option (List FacilityRow) :=
  match rs with
  | [] => none
  | _ :: _ => some ((facilityKeys rs).map (mkFacilityRow rs))

/-- Output row of `DataProcessor.get_packaging_performance` (no
`total_recycled`, no `recovery_rate` in that view). -/
structure PackagingRow where
  packaging_type : String
  total_produced : Int
  total_returned : Int
  total_reused : Int
  total_waste : Int
  co2_saved : ℚ
  cost_savings : ℚ
  reuse_rate : Option ℚ
  waste_rate : Option ℚ
deriving DecidableEq, Repr

/-- Group keys of `df.groupby('packaging_type')`, first-appearance order
(pandas sorts them; order is irrelevant to the claims below). -/
def packagingKeys (rs : List PackagingData) : List String :=
  (rs.map (·.packaging_type)).dedup

/-- Members of one packaging-type group. -/
def packagingGroup (rs : List PackagingData) (k : String) : List PackagingData :=
  rs.filter fun r => r.packaging_type == k

/-- One aggregated packaging row. -/
def mkPackagingRow (rs : List PackagingData) (k : String) : PackagingRow :=
  let g := packagingGroup rs k
  let produced := sumI (·.total_produced) g
  { packaging_type := k
    total_produced := produced
    total_returned := sumI (·.total_returned) g
    total_reused := sumI (·.total_reused) g
    total_waste := sumI (·.total_waste) g
    co2_saved := sumQ (·.co2_saved) g
    cost_savings := sumQ (·.cost_savings) g
    reuse_rate := pdRate (sumI (·.total_reused) g) produced
    waste_rate := pdRate (sumI (·.total_waste) g) produced }

/-- `DataProcessor.get_packaging_performance`. -/
def get_packaging_performance (rs : List PackagingData) : Option (List PackagingRow) :=
  match rs with
  | [] => none
  | _ :: _ => some ((packagingKeys rs).map (mkPackagingRow rs))

/-- Output row of `DataProcessor.get_time_series_data`. -/
structure TimeRow where
  date : Nat
  total_produced : Int
  total_returned : Int
  total_reused : Int
  total_waste : Int
  co2_saved : ℚ
  cost_savings : ℚ
  reuse_rate : Option ℚ
  waste_rate : Option ℚ
deriving DecidableEq, Repr

/-- Members of one date group. -/
def dateGroup (rs : List PackagingData) (d : Nat) : List PackagingData :=
  rs.filter fun r => r.date == d

/-- Distinct dates of the input, ascending: `groupby('date')` sorts its
keys and the trailing `sort_values('date')` keeps them ascending. -/
def sortedDates (rs : List PackagingData) : List Nat :=
  ((rs.map (·.date)).dedup).insertionSort (· ≤ ·)

/-- One aggregated time-series row. -/
def mkTimeRow (rs : List PackagingData) (d : Nat) : TimeRow :=
  let g := dateGroup rs d
  let produced := sumI (·.total_produced) g
  { date := d
    total_produced := produced
    total_returned := sumI (·.total_returned) g
    total_reused := sumI (·.total_reused) g
    total_waste := sumI (·.total_waste) g
    co2_saved := sumQ (·.co2_saved) g
    cost_savings := sumQ (·.cost_savings) g
    reuse_rate := pdRate (sumI (·.total_reused) g) produced
    waste_rate := pdRate (sumI (·.total_waste) g) produced }

/-- `DataProcessor.get_time_series_data`. -/
def get_time_series_data (rs : List PackagingData) : Option (List TimeRow) :=
  match rs with
  | [] => none
  | _ :: _ => some ((sortedDates rs).map (mkTimeRow rs))

/-- Output row of `create_packaging_breakdown`
(`src/pages/3_📊_Sustainability_Report.py`): this view *does* aggregate
`total_recycled`, and derives reuse, recovery and waste rates. -/
structure BreakdownRow where
  packaging_type : String
  total_produced : Int
  total_returned : Int
  total_reused : Int
  total_recycled : Int
  total_waste : Int
  co2_saved : ℚ
  reuse_rate : Option ℚ
  recovery_rate : Option ℚ
  waste_rate : Option ℚ
deriving DecidableEq, Repr

/-- One row of the sustainability-report packaging breakdown. -/
def mkBreakdownRow (rs : List PackagingData) (k : String) : BreakdownRow :=
  let g := packagingGroup rs k
  let produced := sumI (·.total_produced) g
  { packaging_type := k
    total_produced := produced
    total_returned := sumI (·.total_returned) g
    total_reused := sumI (·.total_reused) g
    total_recycled := sumI (·.total_recycled) g
    total_waste := sumI (·.total_waste) g
    co2_saved := sumQ (·.co2_saved) g
    reuse_rate := pdRate (sumI (·.total_reused) g) produced
    recovery_rate := pdRate (sumI (·.total_returned) g) produced
    waste_rate := pdRate (sumI (·.total_waste) g) produced }

/-- `create_packaging_breakdown(df)`: operates on an already-built frame
(columns always present), so it is total on the row list. -/
def create_packaging_breakdown (rs : List PackagingData) : List BreakdownRow :=
  (packagingKeys rs).map (mkBreakdownRow rs)

/-- Numpy `.astype(int)` / Python `int()` truncation toward zero. -/
def pyTrunc (q : ℚ) : Int :=
  if q < 0 then -⌊-q⌋ else ⌊q⌋

/-- Column assignment `simulated_data['total_reused'] =
(simulated_data['total_reused'] * (1 + reuse_improvement)).astype(int)`. -/
def updateReused (ri : ℚ) (df : List PackagingData) : List PackagingData :=
  df.map fun r => { r with total_reused := pyTrunc ((r.total_reused : ℚ) * (1 + ri)) }

/-- Column assignment `simulated_data['total_waste'] =
(simulated_data['total_waste'] * (1 - waste_reduction)).astype(int)`.
No clamp appears in the source. -/
def updateWaste (wr : ℚ) (df : List PackagingData) : List PackagingData :=
  df.map fun r => { r with total_waste := pyTrunc ((r.total_waste : ℚ) * (1 - wr)) }

/-- Column assignment `simulated_data['total_recycled'] =
(simulated_data['total_returned'] - simulated_data['total_reused']).clip(lower=0)`. -/
def updateRecycled (df : List PackagingData) : List PackagingData :=
  df.map fun r => { r with total_recycled := max 0 (r.total_returned - r.total_reused) }

/-- Row-aligned update of the savings columns: `b` is the row of
`self.base_data`, `s` the corresponding row of `simulated_data` after the
three count updates (`co2_factor = 0.5`, `cost_factor = 0.10`). -/
def updateSavingsRow (b s : PackagingData) : PackagingData :=
  let additional_reuse := s.total_reused - b.total_reused
  let waste_reduction_amount := b.total_waste - s.total_waste
  { s with
    co2_saved := b.co2_saved + ((additional_reuse + waste_reduction_amount : Int) : ℚ) * 0.5
    cost_savings := b.cost_savings + ((additional_reuse + waste_reduction_amount : Int) : ℚ) * 0.10 }

/-- The `simulated_data` frame as it stands when `run_scenario` computes
the scenario KPIs: the four column assignments applied, in source order,
to a copy of the base frame. -/
def simulatedData (base : List PackagingData) (ri wr : ℚ) : List PackagingData :=
  List.zipWith updateSavingsRow base (updateRecycled (updateWaste wr (updateReused ri base)))

/-- The whole per-record projection, as one function: composing the four
column assignments row by row gives exactly this. -/
def projectRecord (ri wr : ℚ) (r : PackagingData) : PackagingData :=
  let reused := pyTrunc ((r.total_reused : ℚ) * (1 + ri))
  let waste := pyTrunc ((r.total_waste : ℚ) * (1 - wr))
  { r with
    total_reused := reused
    total_waste := waste
    total_recycled := max 0 (r.total_returned - reused)
    co2_saved :=
      r.co2_saved + (((reused - r.total_reused) + (r.total_waste - waste) : Int) : ℚ) * 0.5
    cost_savings :=
      r.cost_savings + (((reused - r.total_reused) + (r.total_waste - waste) : Int) : ℚ) * 0.10 }

/-- Result of `SimulationEngine._calculate_scenario_kpis` (a dict with
four entries in the source). -/
structure ScenarioKpis where
  reuse_rate : ℚ
  waste_rate : ℚ
  co2_saved : ℚ
  cost_savings : ℚ
deriving DecidableEq, Repr

/-- `SimulationEngine._calculate_scenario_kpis`. It reads only the
`total_produced`, `total_reused`, `total_waste`, `co2_saved` and
`cost_savings` columns, with the `if total_produced > 0 else 0` guard. -/
def calcScenarioKpis (rs : List PackagingData) : ScenarioKpis :=
  let total_produced := sumI (·.total_produced) rs
  let total_reused := sumI (·.total_reused) rs
  let total_waste := sumI (·.total_waste) rs
  { reuse_rate :=
      if 0 < total_produced then (total_reused : ℚ) / (total_produced : ℚ) * 100 else 0
    waste_rate :=
      if 0 < total_produced then (total_waste : ℚ) / (total_produced : ℚ) * 100 else 0
    co2_saved := sumQ (·.co2_saved) rs
    cost_savings := sumQ (·.cost_savings) rs }

/-- The dict returned by `SimulationEngine.run_scenario`: `base_metrics`,
`projected_metrics`, and the four `improvements` entries. -/
structure ScenarioResult where
  base_metrics : ScenarioKpis
  projected_metrics : ScenarioKpis
  reuse_rate_improvement : ℚ
  waste_rate_reduction : ℚ
  additional_co2_saved : ℚ
  additional_cost_savings : ℚ
deriving DecidableEq, Repr

/-- `SimulationEngine.run_scenario` on the rows of `self.base_data`
(a frame with the record schema; a zero-row frame is the empty list). -/
def run_scenario (base : List PackagingData) (ri wr : ℚ) : ScenarioResult :=
  let base_kpis := calcScenarioKpis base
  let new_kpis := calcScenarioKpis (simulatedData base ri wr)
  { base_metrics := base_kpis
    projected_metrics := new_kpis
    reuse_rate_improvement := new_kpis.reuse_rate - base_kpis.reuse_rate
    waste_rate_reduction := base_kpis.waste_rate - new_kpis.waste_rate
    additional_co2_saved := new_kpis.co2_saved - base_kpis.co2_saved
    additional_cost_savings := new_kpis.cost_savings - base_kpis.cost_savings }

/-- The engine object: `__init__` stores `base_data.copy()`. -/
structure SimulationEngine where
  base_data : List PackagingData
deriving DecidableEq, Repr

/-- `SimulationEngine(base_data)`: the constructor copies the caller's
frame by value. -/
def SimulationEngine.init (caller_df : List PackagingData) : SimulationEngine :=
  { base_data := caller_df }

/-- A `run_scenario` call as a state transformer on the engine: the
method body assigns only to the local `simulated_data` copy, so the
stored `base_data` it hands back is the one it started with. -/
def SimulationEngine.runScenarioCall (e : SimulationEngine) (ri wr : ℚ) :
    ScenarioResult × SimulationEngine :=
  (run_scenario e.base_data ri wr, e)

/-- A sequence of `run_scenario` calls with the given parameter pairs,
threading the engine state. -/
def SimulationEngine.runCalls (e : SimulationEngine) :
    List (ℚ × ℚ) → List ScenarioResult × SimulationEngine
  | [] => ([], e)
  | p :: ps =>
    let (res, e1) := e.runScenarioCall p.1 p.2
    let (rest, e2) := e1.runCalls ps
    (res :: rest, e2)

/-- The three record-level invariants of spec §3 (waste balance, return
split, non-negative counts). -/
def recordInvariants (r : PackagingData) : Prop :=
  r.total_waste = r.total_produced - r.total_returned ∧
  r.total_returned = r.total_reused + r.total_recycled ∧
  0 ≤ r.total_produced ∧ 0 ≤ r.total_returned ∧ 0 ≤ r.total_reused ∧
  0 ≤ r.total_recycled ∧ 0 ≤ r.total_waste

instance (r : PackagingData) : Decidable (recordInvariants r) := by
  unfold recordInvariants; infer_instance

/-- The worked-example base aggregate of spec §8.6, as a single record
(its sums are `produced=1000, returned=800, reused=560, recycled=240,
waste=200`). On this input IEEE-double evaluation of the source
coincides exactly with the rational model (`560*(1+0.15) = 644.0` and
`200*(1-0.20) = 160.0` hold in double arithmetic). -/
def exRecord : PackagingData :=
  { date := 1, facility_id := "BR001", facility_name := "Brussels Brewery",
    facility_type := "Brewery", packaging_type := "Glass Bottles",
    total_produced := 1000, total_returned := 800, total_reused := 560,
    total_recycled := 240, total_waste := 200,
    co2_saved := 0, cost_savings := 0, latitude := 0, longitude := 0 }

/-- A record with zero production (the data generator emits facilities
whose base production is 0), all counts zero: the invariants hold. -/
def zRecord : PackagingData :=
  { date := 2, facility_id := "RC001", facility_name := "Brussels Recycling",
    facility_type := "Recycling Center", packaging_type := "Glass Bottles",
    total_produced := 0, total_returned := 0, total_reused := 0,
    total_recycled := 0, total_waste := 0,
    co2_saved := 0, cost_savings := 0, latitude := 0, longitude := 0 }

/-- The facility row aggregated from the singleton worked example. -/
def exFacilityRow : FacilityRow :=
  mkFacilityRow [exRecord] ("BR001", "Brussels Brewery")

/-- The facility row aggregated from the singleton zero-production
record: its derived rates are the non-finite `none`. -/
def zFacilityRow : FacilityRow :=
  mkFacilityRow [zRecord] ("RC001", "Brussels Recycling")

/-- KPI snapshot of the worked example
(`56 = 560/1000*100`, `20`, `80`, and `0.4*56 + 0.3*80 + 0.3*80 = 70.4`). -/
def exKPIs : KPIMetrics :=
  { reuse_rate := 56, waste_rate := 20, recovery_rate := 80,
    co2_saved_total := 0, cost_savings_total := 0, efficiency_score := 70.4 }

/-- A small time-series input with an out-of-order and a duplicate date. -/
def tsInput : List PackagingData :=
  [{ exRecord with date := 9 }, { exRecord with date := 4 }, { exRecord with date := 9 }]

/-- The time-series rows the model produces for `tsInput`. -/
def tsRows : List TimeRow :=
  (sortedDates tsInput).map (mkTimeRow tsInput)

/-! Helper lemmas. -/

theorem pyTrunc_intCast (n : Int) : pyTrunc (n : ℚ) = n := by
  unfold pyTrunc
  split
  · rw [← Int.cast_neg, Int.floor_intCast]; omega
  · exact Int.floor_intCast n

theorem pyTrunc_nonneg {q : ℚ} (h : 0 ≤ q) : 0 ≤ pyTrunc q := by
  unfold pyTrunc
  split
  next hq => exact absurd hq (not_lt.mpr h)
  next => exact Int.floor_nonneg.mpr h

/-- Composing the four column assignments of `run_scenario` row by row is
the per-record projection. -/
theorem simulatedData_eq_map (base : List PackagingData) (ri wr : ℚ) :
    simulatedData base ri wr = base.map (projectRecord ri wr) := by
  induction base with
  | nil => rfl
  | cons a t ih => exact congrArg₂ List.cons rfl ih

theorem sumI_map_inv (f : PackagingData → Int) (g : PackagingData → PackagingData)
    (hfg : ∀ r, f (g r) = f r) (rs : List PackagingData) :
    sumI f (rs.map g) = sumI f rs := by
  induction rs with
  | nil => rfl
  | cons a t ih =>
    simp only [List.map_cons, sumI, List.sum_cons] at ih ⊢
    rw [hfg, ih]

theorem sumQ_map_inv (f : PackagingData → ℚ) (g : PackagingData → PackagingData)
    (hfg : ∀ r, f (g r) = f r) (rs : List PackagingData) :
    sumQ f (rs.map g) = sumQ f rs := by
  induction rs with
  | nil => rfl
  | cons a t ih =>
    simp only [List.map_cons, sumQ, List.sum_cons] at ih ⊢
    rw [hfg, ih]

theorem projectRecord_zero_reused (r : PackagingData) :
    (projectRecord 0 0 r).total_reused = r.total_reused := by
  simp [projectRecord, pyTrunc_intCast]

theorem projectRecord_zero_waste (r : PackagingData) :
    (projectRecord 0 0 r).total_waste = r.total_waste := by
  simp [projectRecord, pyTrunc_intCast]

theorem projectRecord_zero_co2 (r : PackagingData) :
    (projectRecord 0 0 r).co2_saved = r.co2_saved := by
  simp [projectRecord, pyTrunc_intCast]

theorem projectRecord_zero_cost (r : PackagingData) :
    (projectRecord 0 0 r).cost_savings = r.cost_savings := by
  simp [projectRecord, pyTrunc_intCast]

/-- The identity scenario changes none of the columns
`_calculate_scenario_kpis` reads. -/
theorem calcScenarioKpis_zero (rs : List PackagingData) :
    calcScenarioKpis (simulatedData rs 0 0) = calcScenarioKpis rs := by
  rw [simulatedData_eq_map]
  unfold calcScenarioKpis
  rw [sumI_map_inv (·.total_produced) (projectRecord 0 0) (fun _ => rfl) rs,
    sumI_map_inv (·.total_reused) (projectRecord 0 0) projectRecord_zero_reused rs,
    sumI_map_inv (·.total_waste) (projectRecord 0 0) projectRecord_zero_waste rs,
    sumQ_map_inv (·.co2_saved) (projectRecord 0 0) projectRecord_zero_co2 rs,
    sumQ_map_inv (·.cost_savings) (projectRecord 0 0) projectRecord_zero_cost rs]

theorem pdRate_zero_den (n : Int) : pdRate n 0 = none := by
  simp [pdRate, pdDiv]

/-- Record-wise invariants are preserved by column sums. -/
theorem sumIdentities_of_all (l : List PackagingData)
    (h : ∀ r ∈ l, recordInvariants r) :
    sumI (·.total_waste) l = sumI (·.total_produced) l - sumI (·.total_returned) l ∧
    sumI (·.total_returned) l = sumI (·.total_reused) l + sumI (·.total_recycled) l := by
  induction l with
  | nil => simp [sumI]
  | cons a t ih =>
    have ha := h a (by simp)
    have ht := ih fun r hr => h r (List.mem_cons_of_mem a hr)
    obtain ⟨h1, h2, -⟩ := ha
    simp only [sumI, List.map_cons, List.sum_cons] at ht ⊢
    omega

/-- A `run_scenario` call sequence never changes the engine's stored
frame. -/
theorem runCalls_state_eq (e : SimulationEngine) (params : List (ℚ × ℚ)) :
    (e.runCalls params).2 = e := by
  induction params with
  | nil => rfl
  | cons p ps ih => simp [SimulationEngine.runCalls, SimulationEngine.runScenarioCall, ih]

/-- C1: on the spec's worked example (base sums `produced=1000,
returned=800, reused=560, recycled=240, waste=200`, here a single
aggregate record), `run_scenario` with `reuse_improvement=0.15` and
`waste_reduction=0.20` projects summed `reused=644`, `waste=160`,
`recycled=156`, and reports `additional_co2_saved=62.0` and
`additional_cost_savings=12.4`. -/
theorem C1_worked_example :
    sumI (·.total_produced) [exRecord] = 1000 ∧
    sumI (·.total_returned) [exRecord] = 800 ∧
    sumI (·.total_reused) [exRecord] = 560 ∧
    sumI (·.total_recycled) [exRecord] = 240 ∧
    sumI (·.total_waste) [exRecord] = 200 ∧
    sumI (·.total_reused) (simulatedData [exRecord] 0.15 0.20) = 644 ∧
    sumI (·.total_waste) (simulatedData [exRecord] 0.15 0.20) = 160 ∧
    sumI (·.total_recycled) (simulatedData [exRecord] 0.15 0.20) = 156 ∧
    (run_scenario [exRecord] 0.15 0.20).additional_co2_saved = 62 ∧
    (run_scenario [exRecord] 0.15 0.20).additional_cost_savings = 12.4 := by
  with_unfolding_all decide

/-- C2: when every input record satisfies the waste-balance and
return-split identities with non-negative counts, every row of the
facility, packaging-type and time-series aggregations satisfies the same
two identities on the summed counts of its group (the row carries all
the summed fields except `total_recycled`, which the source does not
aggregate in these three views; the identity is stated with the group's
`total_recycled` sum). -/
theorem C2_aggregate_invariants (rs : List PackagingData)
    (h : ∀ r ∈ rs, recordInvariants r) :
    (∀ rows, get_facility_performance rs = some rows → ∀ row ∈ rows,
      row.total_waste = row.total_produced - row.total_returned ∧
      row.total_returned = row.total_reused +
        sumI (·.total_recycled) (facilityGroup rs (row.facility_id, row.facility_name))) ∧
    (∀ rows, get_packaging_performance rs = some rows → ∀ row ∈ rows,
      row.total_waste = row.total_produced - row.total_returned ∧
      row.total_returned = row.total_reused +
        sumI (·.total_recycled) (packagingGroup rs row.packaging_type)) ∧
    (∀ rows, get_time_series_data rs = some rows → ∀ row ∈ rows,
      row.total_waste = row.total_produced - row.total_returned ∧
      row.total_returned = row.total_reused +
        sumI (·.total_recycled) (dateGroup rs row.date)) := by
  refine ⟨?_, ?_, ?_⟩
  · intro rows hrows row hrow
    cases rs with
    | nil => simp [get_facility_performance] at hrows
    | cons a t =>
      simp only [get_facility_performance, Option.some.injEq] at hrows
      subst hrows
      obtain ⟨k, hk, rfl⟩ := List.mem_map.mp hrow
      have hs := sumIdentities_of_all (facilityGroup (a :: t) k) fun r hr =>
        h r (List.mem_of_mem_filter hr)
      dsimp only [mkFacilityRow]
      simp only [Prod.mk.eta]
      omega
  · intro rows hrows row hrow
    cases rs with
    | nil => simp [get_packaging_performance] at hrows
    | cons a t =>
      simp only [get_packaging_performance, Option.some.injEq] at hrows
      subst hrows
      obtain ⟨k, hk, rfl⟩ := List.mem_map.mp hrow
      have hs := sumIdentities_of_all (packagingGroup (a :: t) k) fun r hr =>
        h r (List.mem_of_mem_filter hr)
      dsimp only [mkPackagingRow]
      omega
  · intro rows hrows row hrow
    cases rs with
    | nil => simp [get_time_series_data] at hrows
    | cons a t =>
      simp only [get_time_series_data, Option.some.injEq] at hrows
      subst hrows
      obtain ⟨d, hd, rfl⟩ := List.mem_map.mp hrow
      have hs := sumIdentities_of_all (dateGroup (a :: t) d) fun r hr =>
        h r (List.mem_of_mem_filter hr)
      dsimp only [mkTimeRow]
      omega

set_option maxRecDepth 4000 in
/-- C2 witness: the invariants hold on the facility row aggregated from
the worked-example record. -/
theorem C2_aggregate_invariants_witness :
    exFacilityRow.total_waste = exFacilityRow.total_produced - exFacilityRow.total_returned ∧
    exFacilityRow.total_returned = exFacilityRow.total_reused +
      sumI (·.total_recycled)
        (facilityGroup [exRecord] (exFacilityRow.facility_id, exFacilityRow.facility_name)) :=
  (C2_aggregate_invariants [exRecord] (by decide)).1 [exFacilityRow]
    (by with_unfolding_all decide) exFacilityRow (by simp)

/-- C3: the identity scenario (`reuse_improvement = waste_reduction = 0`)
returns projected metrics exactly equal to the base metrics and four
zero improvement deltas, for every record collection. -/
theorem C3_identity_scenario (rs : List PackagingData) :
    (run_scenario rs 0 0).projected_metrics = (run_scenario rs 0 0).base_metrics ∧
    (run_scenario rs 0 0).reuse_rate_improvement = 0 ∧
    (run_scenario rs 0 0).waste_rate_reduction = 0 ∧
    (run_scenario rs 0 0).additional_co2_saved = 0 ∧
    (run_scenario rs 0 0).additional_cost_savings = 0 := by
  unfold run_scenario
  dsimp only
  rw [calcScenarioKpis_zero]
  exact ⟨rfl, sub_self _, sub_self _, sub_self _, sub_self _⟩

set_option maxRecDepth 4000 in
/-- C4 counterexample: on the worked-example base record (which
satisfies the count identities) with `waste_reduction = 0.20`, the
projected record has `total_waste = 160` while `total_produced −
total_returned = 200`: the waste-balance identity fails on the
projected data. -/
theorem C4_counterexample :
    recordInvariants exRecord ∧
    simulatedData [exRecord] 0.15 0.20 = [projectRecord 0.15 0.20 exRecord] ∧
    (projectRecord 0.15 0.20 exRecord).total_waste ≠
      (projectRecord 0.15 0.20 exRecord).total_produced -
        (projectRecord 0.15 0.20 exRecord).total_returned := by
  with_unfolding_all decide

/-- C4 (amended): `run_scenario` leaves `total_produced` and
`total_returned` of every projected record unchanged and keeps
`total_recycled` non-negative, and the return-split identity
`total_returned = total_reused + total_recycled` holds in the projected
record whenever the projected `total_reused` does not exceed
`total_returned`; the waste-balance identity is not preserved (the waste
column is rescaled while produced and returned stay fixed). -/
theorem C4_projection_identities (base : List PackagingData) (ri wr : ℚ)
    (h : ∀ r ∈ base, recordInvariants r) :
    ∀ r ∈ base,
      (projectRecord ri wr r).total_produced = r.total_produced ∧
      (projectRecord ri wr r).total_returned = r.total_returned ∧
      0 ≤ (projectRecord ri wr r).total_recycled ∧
      ((projectRecord ri wr r).total_reused ≤ (projectRecord ri wr r).total_returned →
        (projectRecord ri wr r).total_returned =
          (projectRecord ri wr r).total_reused + (projectRecord ri wr r).total_recycled) := by
  intro r hr
  refine ⟨rfl, rfl, ?_, ?_⟩
  · dsimp only [projectRecord]
    exact le_max_left 0 _
  · intro hle
    dsimp only [projectRecord] at hle ⊢
    omega

/-- C4 witness: the amended statement at the worked example with the
moderate preset parameters. -/
theorem C4_projection_identities_witness :
    (projectRecord 0.15 0.20 exRecord).total_produced = exRecord.total_produced ∧
    (projectRecord 0.15 0.20 exRecord).total_returned = exRecord.total_returned ∧
    0 ≤ (projectRecord 0.15 0.20 exRecord).total_recycled ∧
    ((projectRecord 0.15 0.20 exRecord).total_reused ≤
        (projectRecord 0.15 0.20 exRecord).total_returned →
      (projectRecord 0.15 0.20 exRecord).total_returned =
        (projectRecord 0.15 0.20 exRecord).total_reused +
          (projectRecord 0.15 0.20 exRecord).total_recycled) :=
  C4_projection_identities [exRecord] 0.15 0.20 (by decide) exRecord (by simp)

set_option maxRecDepth 4000 in
/-- C5 counterexample: with `waste_reduction = 2` (a value greater than
1, which the claim includes) on the worked-example record with
non-negative counts, the projected `total_waste` is `-200`: the source
clips only `total_recycled`, never `total_waste`. -/
theorem C5_counterexample :
    (0 ≤ exRecord.total_produced ∧ 0 ≤ exRecord.total_returned ∧
      0 ≤ exRecord.total_reused ∧ 0 ≤ exRecord.total_recycled ∧
      0 ≤ exRecord.total_waste) ∧
    simulatedData [exRecord] 0 2 = [projectRecord 0 2 exRecord] ∧
    (projectRecord 0 2 exRecord).total_waste < 0 := by
  with_unfolding_all decide

/-- C5 (amended): for non-negative base counts, every projected record
has `total_recycled ≥ 0` (the `.clip(lower=0)` of the source, for all
parameter values), and `total_waste ≥ 0` holds whenever
`waste_reduction ≤ 1`; `total_waste` is not clamped and goes negative
for `waste_reduction > 1` on positive base waste. No parameter value is
rejected with an error. -/
theorem C5_clamping (base : List PackagingData) (ri wr : ℚ)
    (h : ∀ r ∈ base, 0 ≤ r.total_produced ∧ 0 ≤ r.total_returned ∧
      0 ≤ r.total_reused ∧ 0 ≤ r.total_recycled ∧ 0 ≤ r.total_waste) :
    ∀ r ∈ base,
      0 ≤ (projectRecord ri wr r).total_recycled ∧
      (wr ≤ 1 → 0 ≤ (projectRecord ri wr r).total_waste) := by
  intro r hr
  constructor
  · dsimp only [projectRecord]
    exact le_max_left 0 _
  · intro hwr
    dsimp only [projectRecord]
    apply pyTrunc_nonneg
    have h0 : (0 : ℚ) ≤ (r.total_waste : ℚ) := by exact_mod_cast (h r hr).2.2.2.2
    have h1 : (0 : ℚ) ≤ 1 - wr := by linarith
    exact mul_nonneg h0 h1

/-- C5 witness: the amended statement at the worked example with
`waste_reduction = 0.20`. -/
theorem C5_clamping_witness :
    0 ≤ (projectRecord 0.15 0.20 exRecord).total_recycled ∧
    ((0.20 : ℚ) ≤ 1 → 0 ≤ (projectRecord 0.15 0.20 exRecord).total_waste) :=
  C5_clamping [exRecord] 0.15 0.20 (by decide) exRecord (by simp)

/-- C6 counterexample: on the empty record collection,
`pd.DataFrame([])` has no columns, so `calculate_kpis` raises `KeyError`
(modelled as `none`): it does not return the all-zero `KPIMetrics`. -/
theorem C6_counterexample :
    calculate_kpis [] ≠ some
      { reuse_rate := 0, waste_rate := 0, recovery_rate := 0,
        co2_saved_total := 0, cost_savings_total := 0, efficiency_score := 0 } := by
  simp [calculate_kpis]

/-- C6 (amended): `DataProcessor` on the empty record collection builds
a column-less frame, so `calculate_kpis` and each of the three
aggregations fail with `KeyError` (modelled as `none`) instead of
returning zero-valued results. -/
theorem C6_empty_collection :
    calculate_kpis [] = none ∧
    get_facility_performance [] = none ∧
    get_packaging_performance [] = none ∧
    get_time_series_data [] = none :=
  ⟨rfl, rfl, rfl, rfl⟩

/-- C7 counterexample: a single zero-production record (which satisfies
the invariants) aggregates to a facility row whose `total_produced` is 0
and whose rates are the non-finite result of dividing by zero
(`none`), not 0. -/
theorem C7_counterexample :
    recordInvariants zRecord ∧
    get_facility_performance [zRecord] = some [zFacilityRow] ∧
    zFacilityRow.total_produced = 0 ∧
    zFacilityRow.reuse_rate ≠ some 0 ∧
    zFacilityRow.reuse_rate = none := by
  with_unfolding_all decide

/-- C7 (amended): when the summed `total_produced` is zero,
`calculate_kpis` (the only guarded derivation) returns rates equal to 0,
while every grouped aggregation (facility, packaging type, time series,
and the sustainability-report packaging breakdown) yields non-finite
rate values (`none`, the `NaN`/`inf` of a pandas zero division) for that
group — no exception is raised, but the rates are not 0. -/
theorem C7_zero_produced_rates (rs : List PackagingData) :
    (∀ k, calculate_kpis rs = some k → sumI (·.total_produced) rs = 0 →
      k.reuse_rate = 0 ∧ k.waste_rate = 0 ∧ k.recovery_rate = 0) ∧
    (∀ rows, get_facility_performance rs = some rows → ∀ row ∈ rows,
      row.total_produced = 0 →
      row.reuse_rate = none ∧ row.waste_rate = none ∧ row.recovery_rate = none) ∧
    (∀ rows, get_packaging_performance rs = some rows → ∀ row ∈ rows,
      row.total_produced = 0 → row.reuse_rate = none ∧ row.waste_rate = none) ∧
    (∀ rows, get_time_series_data rs = some rows → ∀ row ∈ rows,
      row.total_produced = 0 → row.reuse_rate = none ∧ row.waste_rate = none) ∧
    (∀ row ∈ create_packaging_breakdown rs, row.total_produced = 0 →
      row.reuse_rate = none ∧ row.recovery_rate = none ∧ row.waste_rate = none) := by
  refine ⟨?_, ?_, ?_, ?_, ?_⟩
  · intro k hk h0
    cases rs with
    | nil => simp [calculate_kpis] at hk
    | cons a t =>
      simp only [calculate_kpis, Option.some.injEq] at hk
      subst hk
      simp [h0]
  · intro rows hrows row hrow h0
    cases rs with
    | nil => simp [get_facility_performance] at hrows
    | cons a t =>
      simp only [get_facility_performance, Option.some.injEq] at hrows
      subst hrows
      obtain ⟨k, hk, rfl⟩ := List.mem_map.mp hrow
      dsimp only [mkFacilityRow] at h0 ⊢
      rw [h0]
      exact ⟨pdRate_zero_den _, pdRate_zero_den _, pdRate_zero_den _⟩
  · intro rows hrows row hrow h0
    cases rs with
    | nil => simp [get_packaging_performance] at hrows
    | cons a t =>
      simp only [get_packaging_performance, Option.some.injEq] at hrows
      subst hrows
      obtain ⟨k, hk, rfl⟩ := List.mem_map.mp hrow
      dsimp only [mkPackagingRow] at h0 ⊢
      rw [h0]
      exact ⟨pdRate_zero_den _, pdRate_zero_den _⟩
  · intro rows hrows row hrow h0
    cases rs with
    | nil => simp [get_time_series_data] at hrows
    | cons a t =>
      simp only [get_time_series_data, Option.some.injEq] at hrows
      subst hrows
      obtain ⟨d, hd, rfl⟩ := List.mem_map.mp hrow
      dsimp only [mkTimeRow] at h0 ⊢
      rw [h0]
      exact ⟨pdRate_zero_den _, pdRate_zero_den _⟩
  · intro row hrow h0
    obtain ⟨k, hk, rfl⟩ := List.mem_map.mp hrow
    dsimp only [mkBreakdownRow] at h0 ⊢
    rw [h0]
    exact ⟨pdRate_zero_den _, pdRate_zero_den _, pdRate_zero_den _⟩

set_option maxRecDepth 4000 in
/-- C7 witness: the amended statement applied to the zero-production
record gives non-finite rates on its facility row. -/
theorem C7_zero_produced_rates_witness :
    zFacilityRow.reuse_rate = none ∧ zFacilityRow.waste_rate = none ∧
    zFacilityRow.recovery_rate = none :=
  (C7_zero_produced_rates [zRecord]).2.1 [zFacilityRow]
    (by with_unfolding_all decide) zFacilityRow (by simp) (by decide)

/-- C8: the time-series aggregation output has strictly ascending dates,
and its dates are exactly the distinct dates present in the input (one
row per distinct date, no duplicates). -/
theorem C8_time_series_sorted (rs : List PackagingData) (rows : List TimeRow)
    (h : get_time_series_data rs = some rows) :
    List.Pairwise (· < ·) (rows.map (·.date)) ∧
    ∀ d, d ∈ rows.map (·.date) ↔ d ∈ rs.map (·.date) := by
  cases rs with
  | nil => simp [get_time_series_data] at h
  | cons a t =>
    simp only [get_time_series_data, Option.some.injEq] at h
    subst h
    have hdates : ((sortedDates (a :: t)).map (mkTimeRow (a :: t))).map (·.date)
        = sortedDates (a :: t) := by
      rw [List.map_map, show ((·.date) ∘ mkTimeRow (a :: t) : Nat → Nat) = id from
        funext fun d => rfl, List.map_id]
    rw [hdates]
    constructor
    · have hsorted : List.Sorted (· ≤ ·) (sortedDates (a :: t)) :=
        List.sorted_insertionSort _ _
      have hnodup : (sortedDates (a :: t)).Nodup :=
        ((List.perm_insertionSort _ _).nodup_iff).mpr (List.nodup_dedup _)
      exact hsorted.lt_of_le hnodup
    · intro d
      unfold sortedDates
      rw [(List.perm_insertionSort _ _).mem_iff, List.mem_dedup]

/-- C8 witness: on an input with dates `9, 4, 9` the output rows carry
the strictly ascending distinct dates `4, 9`. -/
theorem C8_time_series_sorted_witness :
    List.Pairwise (· < ·) (tsRows.map (·.date)) ∧
    ∀ d, d ∈ tsRows.map (·.date) ↔ d ∈ tsInput.map (·.date) :=
  C8_time_series_sorted tsInput tsRows (by with_unfolding_all rfl)

/-- C9: the efficiency score of every `KPIMetrics` value returned by
`calculate_kpis` equals `0.4·reuse_rate + 0.3·(100 − waste_rate) +
0.3·recovery_rate` computed from the rates in the same value. -/
theorem C9_efficiency_score (rs : List PackagingData) (k : KPIMetrics)
    (h : calculate_kpis rs = some k) :
    k.efficiency_score =
      0.4 * k.reuse_rate + 0.3 * (100 - k.waste_rate) + 0.3 * k.recovery_rate := by
  cases rs with
  | nil => simp [calculate_kpis] at h
  | cons a t =>
    simp only [calculate_kpis, Option.some.injEq] at h
    subst h
    dsimp only
    ring

set_option maxRecDepth 4000 in
/-- C9 witness: the efficiency-score identity on the KPI snapshot of the
worked example (`70.4 = 0.4·56 + 0.3·80 + 0.3·80`). -/
theorem C9_efficiency_score_witness :
    exKPIs.efficiency_score =
      0.4 * exKPIs.reuse_rate + 0.3 * (100 - exKPIs.waste_rate) +
        0.3 * exKPIs.recovery_rate :=
  C9_efficiency_score [exRecord] exKPIs (by with_unfolding_all decide)

/-- C10: a `SimulationEngine` built from a caller's frame still stores
exactly that frame after any sequence of `run_scenario` calls: the
method writes only to its local `simulated_data` copy, and the
constructor's `.copy()` decouples the stored frame from the caller's. -/
theorem C10_base_data_unchanged (caller : List PackagingData)
    (params : List (ℚ × ℚ)) :
    ((SimulationEngine.init caller).runCalls params).2.base_data = caller ∧
    ((SimulationEngine.init caller).runCalls params).2 = SimulationEngine.init caller := by
  rw [runCalls_state_eq]
  exact ⟨rfl, rfl⟩
